import Mathlib

/-!
Shallow embedding of the client-side session/request orchestration layer of
the Offline-RAG frontend:

* services/api.ts            — the HTTP client facade (four backend calls)
* components/ChatInterface   — the query orchestrator (handleSend,
                               handleClearChat, logs state)
* components/AdminSidebar    — the admin operations controller
                               (handleFileUpload, handleClearIndex)

Loosely typed JavaScript runtime values that cross the wire are modelled by
the inductive type Json below; absent object fields (undefined) are modelled
by Option Json with none for absence.  Numbers are modelled as integers: no
claim depends on fractional values, and every concrete number appearing in
the claims is an integer.
-/

/-- Runtime JSON-like value, as produced by decoding a response body. -/
inductive Json where
  | null : Json
  | bool (b : Bool) : Json
  | num (n : Int) : Json
  | str (s : String) : Json
  | arr (xs : List Json) : Json
  | obj (kvs : List (String × Json)) : Json

/-- JavaScript truthiness of a runtime value (null, false, 0 and the empty
string are falsy; every array and object is truthy). -/
def truthy : Json → Bool
  | .null => false
  | .bool b => b
  | .num n => n != 0
  | .str s => s != ""
  | .arr _ => true
  | .obj _ => true

/-- Whether a runtime value is a string, i.e. typeof v is the string tag. -/
def Json.isStr : Json → Bool
  | .str _ => true
  | _ => false

/-- Whether a runtime value is an array, i.e. Array.isArray v. -/
def Json.isArr : Json → Bool
  | .arr _ => true
  | _ => false

/-- Characters removed by String.prototype.trim (ASCII whitespace; the
Unicode space classes play no role in any claim). -/
def jsWhitespaceChar (c : Char) : Bool :=
  c = ' ' || c = '\t' || c = '\n' || c = '\r' || c = '\x0b' || c = '\x0c'

/-- Model of String.prototype.trim: strip leading and trailing whitespace. -/
def jsTrim (s : String) : String :=
  String.mk (((s.toList.dropWhile jsWhitespaceChar).reverse.dropWhile
    jsWhitespaceChar).reverse)

/-- Model of String.prototype.split with separator the newline character:
splitting the empty string gives one empty piece, and a trailing newline
gives a trailing empty piece, exactly as in JavaScript. -/
def jsSplitNl (s : String) : List String :=
  (s.toList.foldr
    (fun c acc =>
      if c = '\n' then [] :: acc
      else
        match acc with
        | [] => [[c]]
        | h :: t => (c :: h) :: t)
    [[]]).map String.mk

/-- Hexadecimal digit character, lower case, as printed by JSON.stringify
in a unicode escape. -/
def hexDigitChar (n : Nat) : Char :=
  if n < 10 then Char.ofNat (48 + n) else Char.ofNat (87 + n)

/-- Escape one character the way JSON.stringify escapes characters inside a
string literal. -/
def jsonEscapeChar (c : Char) : List Char :=
  if c = '"' then ['\\', '"']
  else if c = '\\' then ['\\', '\\']
  else if c = '\x08' then ['\\', 'b']
  else if c = '\t' then ['\\', 't']
  else if c = '\n' then ['\\', 'n']
  else if c = '\x0c' then ['\\', 'f']
  else if c = '\r' then ['\\', 'r']
  else if c.toNat < 32 then
    ['\\', 'u', '0', '0', hexDigitChar (c.toNat / 16), hexDigitChar (c.toNat % 16)]
  else [c]

/-- Quoted string literal as printed by JSON.stringify. -/
def jsonQuote (s : String) : String :=
  String.mk ('"' :: s.toList.foldr (fun c acc => jsonEscapeChar c ++ acc) ['"'])

/-- Indentation string used by JSON.stringify with gap 2: twice the nesting
depth many spaces. -/
def jsonIndent (d : Nat) : String :=
  String.mk (List.replicate (2 * d) ' ')

mutual

/-- Model of JSON.stringify v null 2 at nesting depth d. -/
def stringifyAt : Json → Nat → String
  | .null, _ => "null"
  | .bool true, _ => "true"
  | .bool false, _ => "false"
  | .num n, _ => toString n
  | .str s, _ => jsonQuote s
  | .arr [], _ => "[]"
  | .arr (x :: xs), d =>
      "[\n" ++ jsonIndent (d + 1) ++ stringifyAt x (d + 1) ++
        stringifyArrTail xs (d + 1) ++ "\n" ++ jsonIndent d ++ "]"
  | .obj [], _ => "\x7b\x7d"
  | .obj ((k, v) :: kvs), d =>
      "\x7b\n" ++ jsonIndent (d + 1) ++ jsonQuote k ++ ": " ++
        stringifyAt v (d + 1) ++ stringifyObjTail kvs (d + 1) ++
        "\n" ++ jsonIndent d ++ "\x7d"

/-- Remaining array elements, each on its own line at depth d. -/
def stringifyArrTail : List Json → Nat → String
  | [], _ => ""
  | x :: xs, d =>
      ",\n" ++ jsonIndent d ++ stringifyAt x d ++ stringifyArrTail xs d

/-- Remaining object entries, each on its own line at depth d. -/
def stringifyObjTail : List (String × Json) → Nat → String
  | [], _ => ""
  | (k, v) :: kvs, d =>
      ",\n" ++ jsonIndent d ++ jsonQuote k ++ ": " ++ stringifyAt v d ++
        stringifyObjTail kvs d

end

/-- Model of the expression JSON.stringify v null 2 as it appears in the
metadata normalization: stringification starting at depth zero. -/
def jsonStringify2 (v : Json) : String :=
  stringifyAt v 0

/-- Message role tag, the discriminant of the ChatMessage variant. -/
inductive Role where
  | user : Role
  | assistant : Role
deriving DecidableEq

/-- A chat message as held in the session history (interface ChatMessage in
services/api.ts): sources and metadata are optional and only ever set on
assistant messages built from a successful response. -/
structure ChatMessage where
  role : Role
  content : String
  sources : Option (List Json)
  metadata : Option String
  timestamp : String

/-- State owned by the ChatInterface component: the session message
history, the input buffer, the in-flight flag and the log batch. -/
structure ChatState where
  messages : List ChatMessage
  input : String
  isLoading : Bool
  logs : List Json

/-- A transient notification as raised through the toast hook. -/
structure Toast where
  title : String
  description : String
  variant : Option String

/-- Errors observable by a caller of the HTTP client facade: an Error
thrown on a non-success status, the propagated rejection of fetch when no
response was received, and any other unexpected exception raised while a
response is being processed.  Every such value is an Error instance
carrying a message. -/
inductive ApiError where
  | httpStatus (msg : String) : ApiError
  | transport (msg : String) : ApiError
  | exn (msg : String) : ApiError
deriving DecidableEq

/-- Message text carried by an error value. -/
def errMessage : ApiError → String
  | .httpStatus m => m
  | .transport m => m
  | .exn m => m

/-- Outcome of one fetch call: either the promise rejected before any
response arrived, or a response with a status code, a status text and a
decoded body was received.  The ok flag of a fetch response is status in
the range 200 to 299. -/
inductive FetchResult where
  | noResponse (reason : String) : FetchResult
  | response (status : Nat) (statusText : String) (body : Json) : FetchResult

/-- The ok field of a fetch Response: success statuses are 200 to 299. -/
def statusOk (status : Nat) : Bool :=
  200 ≤ status && status < 300

/-- Request body sent by ApiService.query: the object with the single
field query holding the question. -/
def apiQueryRequestBody (question : String) : Json :=
  Json.obj [("query", Json.str question)]

/-- ApiService.query, services/api.ts lines 33 to 47: throws an Error
carrying the status text when the response is not ok, propagates the fetch
rejection when no response arrived, otherwise yields the decoded body. -/
def apiQuery (f : FetchResult) : Except ApiError Json :=
  match f with
  | .noResponse reason => .error (.transport reason)
  | .response status statusText body =>
      if statusOk status then .ok body
      else .error (.httpStatus ("Query failed: " ++ statusText))

/-- ApiService.uploadDocuments, services/api.ts lines 49 to 65: same error
contract with its own message text. -/
def apiUploadDocuments (f : FetchResult) : Except ApiError Json :=
  match f with
  | .noResponse reason => .error (.transport reason)
  | .response status statusText body =>
      if statusOk status then .ok body
      else .error (.httpStatus ("Upload failed: " ++ statusText))

/-- ApiService.inspectStructure, services/api.ts lines 67 to 75. -/
def apiInspectStructure (f : FetchResult) : Except ApiError Json :=
  match f with
  | .noResponse reason => .error (.transport reason)
  | .response status statusText body =>
      if statusOk status then .ok body
      else .error (.httpStatus ("Inspect failed: " ++ statusText))

/-- ApiService.clearIndex result, services/api.ts lines 77 to 91. -/
def apiClearIndex (f : FetchResult) : Except ApiError Json :=
  match f with
  | .noResponse reason => .error (.transport reason)
  | .response status statusText body =>
      if statusOk status then .ok body
      else .error (.httpStatus ("Clear failed: " ++ statusText))

/-- Request body sent by ApiService.clearIndex, services/api.ts line 83:
JSON.stringify of the object whose index_name field is indexName or null,
so an absent argument and the empty string both become null, while any
other string, whitespace included, is sent verbatim. -/
def apiClearIndexRequestBody (indexName : Option String) : Json :=
  Json.obj [("index_name",
    match indexName with
    | none => Json.null
    | some s => if s = "" then Json.null else Json.str s)]

/-- A raw decoded query response body, each field possibly absent
(undefined) and of unconstrained shape. -/
structure RawQueryResponse where
  answer : Option Json
  sources : Option Json
  metadata_used : Option Json
  logs : Option Json

/-- Answer normalization, ChatInterface handleSend: the answer if it is a
string, otherwise a fixed placeholder. -/
def normAnswer : Option Json → String
  | some (.str s) => s
  | _ => "⚠️ No answer received."

/-- Sources normalization, ChatInterface handleSend: an array is used
as-is, a string is split on newlines with falsy (empty) pieces dropped,
anything else gives the empty list. -/
def normSources : Option Json → List Json
  | some (.arr xs) => xs
  | some (.str s) => ((jsSplitNl s).filter (fun x => x != "")).map Json.str
  | _ => []

/-- Metadata normalization, ChatInterface handleSend: a string is used
as-is; otherwise a truthy value is pretty-printed with JSON.stringify and
a falsy or absent value becomes the sentinel. -/
def normMetadata : Option Json → String
  | some (.str s) => s
  | some v => if truthy v then jsonStringify2 v else "No metadata"
  | none => "No metadata"

/-- Log batch update on success, ChatInterface handleSend: replaced
wholesale when the logs field is truthy and an array (every array is
truthy), untouched otherwise. -/
def updateLogs (respLogs : Option Json) (cur : List Json) : List Json :=
  match respLogs with
  | some (.arr xs) => xs
  | _ => cur

/-- Fixed apology content of the synthetic assistant error message. -/
def errorContent : String :=
  "❌ Sorry, I encountered an error while processing your request. Please try again."

/-- Synchronous first phase of handleSend, ChatInterface lines 260 to 273:
guard on empty trimmed input or an in-flight query, otherwise append the
optimistic user message, clear the input buffer, set the loading flag and
issue the request (returned as some question). -/
def handleSendStart (st : ChatState) (ts : String) : ChatState × Option String :=
  let question := jsTrim st.input
  if question = "" ∨ st.isLoading = true then (st, none)
  else
    ({ st with
        messages := st.messages ++
          [{ role := .user, content := question, sources := none,
             metadata := none, timestamp := ts }],
        input := "",
        isLoading := true },
     some question)

/-- Settlement of handleSend on a successful response, ChatInterface lines
275 to 306 plus the finally block: normalize the body, update the log
batch, append the assistant message, clear the loading flag. -/
def handleSendSuccess (st : ChatState) (resp : RawQueryResponse) (ts : String) :
    ChatState :=
  { st with
      messages := st.messages ++
        [{ role := .assistant, content := normAnswer resp.answer,
           sources := some (normSources resp.sources),
           metadata := some (normMetadata resp.metadata_used),
           timestamp := ts }],
      logs := updateLogs resp.logs st.logs,
      isLoading := false }

/-- Settlement of handleSend on a failure, ChatInterface lines 307 to 324
plus the finally block: append the fixed-text assistant error message with
neither sources nor metadata, raise a destructive toast with the message
of the error, clear the loading flag; the log batch is not touched. -/
def handleSendFailure (st : ChatState) (err : ApiError) (ts : String) :
    ChatState × Toast :=
  ({ st with
      messages := st.messages ++
        [{ role := .assistant, content := errorContent, sources := none,
           metadata := none, timestamp := ts }],
      isLoading := false },
   { title := "Error", description := errMessage err,
     variant := some "destructive" })

/-- handleClearChat, ChatInterface lines 327 to 333: empty the message
history and raise a confirmation toast.  The logs state is not written. -/
def handleClearChat (st : ChatState) : ChatState × Toast :=
  ({ st with messages := [] },
   { title := "Chat Cleared", description := "Chat history has been cleared",
     variant := none })

/-- State owned by the AdminSidebar component: one busy flag per
operation, the clear-index name field and the last inspect result. -/
structure AdminState where
  uploading : Bool
  inspecting : Bool
  clearing : Bool
  clearIndexName : String
  inspectData : Option Json

/-- Synchronous first phase of handleFileUpload, AdminSidebar lines 22 to
26: with an empty file list return at once, before the busy flag is set
and before any request is issued; otherwise set the busy flag and issue
the upload request (returned as some files). -/
def handleFileUploadStart (st : AdminState) (files : List String) :
    AdminState × Option (List String) :=
  if files.length = 0 then (st, none)
  else ({ st with uploading := true }, some files)

/-- Settlement of handleFileUpload, AdminSidebar lines 27 to 44: a success
toast counting the files, or a destructive toast with the message of the
error; the busy flag is cleared in both cases. -/
def handleFileUploadSettle (st : AdminState) (nFiles : Nat)
    (outcome : Except ApiError Json) : AdminState × Toast :=
  match outcome with
  | .ok _ =>
      ({ st with uploading := false },
       { title := "Upload Successful",
         description := "Uploaded " ++ toString nFiles ++ " documents successfully",
         variant := none })
  | .error e =>
      ({ st with uploading := false },
       { title := "Upload Failed", description := errMessage e,
         variant := some "destructive" })

/-- Argument handleClearIndex passes to the facade, AdminSidebar line 70:
clearIndexName or undefined, so the empty string becomes an absent
argument and every other string is passed through untrimmed. -/
def handleClearIndexArg (clearIndexName : String) : Option String :=
  if clearIndexName = "" then none else some clearIndexName

/-- Request body produced by one invocation of the admin Clear operation
with the given name field: the composition of handleClearIndexArg with
the body construction of ApiService.clearIndex. -/
def handleClearIndexBody (clearIndexName : String) : Json :=
  apiClearIndexRequestBody (handleClearIndexArg clearIndexName)

/-!  Helper evaluation lemmas for the stringifier (shared by several
claims below). -/

lemma jsonStringify2_null : jsonStringify2 Json.null = "null" := by
  simp [jsonStringify2, stringifyAt]

lemma jsonStringify2_false : jsonStringify2 (Json.bool false) = "false" := by
  simp [jsonStringify2, stringifyAt]

lemma jsonStringify2_zero : jsonStringify2 (Json.num 0) = "0" := by
  simp [jsonStringify2, stringifyAt]
  rfl

example : jsonStringify2 (Json.obj [("x", Json.num 1)]) =
    "\x7b\n  \"x\": 1\n\x7d" := by
  simp [jsonStringify2, stringifyAt, stringifyObjTail, jsonQuote, jsonEscapeChar,
    jsonIndent]
  rfl

example : jsTrim "  hi  " = "hi" := by decide

example : jsSplitNl "a\nb\n" = ["a", "b", ""] := by decide

/-- C1 (counterexample): clearing the session does not reset the log
batch.  In a state whose log batch is non-empty, the state after
handleClearChat still has a non-empty log batch, contradicting the claim
that the clear-session action resets the log batch to the empty
sequence. -/
theorem handleClearChat_keeps_logs_cex :
    (handleClearChat { messages := [], input := "", isLoading := false,
                       logs := [Json.str "step 1"] }).1.logs ≠ [] := by
  simp [handleClearChat]

/-- C1 (amended): for every session state, the clear-session action
replaces the message sequence with the empty sequence and raises the
transient confirmation notification, while the log batch (and the rest of
the state) is left unchanged. -/
theorem handleClearChat_clears_messages_keeps_logs (st : ChatState) :
    (handleClearChat st).1.messages = [] ∧
    (handleClearChat st).1.logs = st.logs ∧
    (handleClearChat st).1.input = st.input ∧
    (handleClearChat st).1.isLoading = st.isLoading ∧
    (handleClearChat st).2 =
      { title := "Chat Cleared", description := "Chat history has been cleared",
        variant := none } := by
  simp [handleClearChat]

/-- C2: in every state whose query is in flight (isLoading set), a send
invocation is a complete no-op: the state is returned unchanged (so no
message is appended and the input buffer is not cleared) and no request is
issued.  Hence at most one query is ever in flight. -/
theorem handleSend_noop_when_sending (st : ChatState) (ts : String)
    (h : st.isLoading = true) :
    handleSendStart st ts = (st, none) := by
  simp [handleSendStart, h]

/-- C2 (witness): the no-op send at a concrete in-flight state. -/
theorem handleSend_noop_when_sending_witness :
    handleSendStart { messages := [], input := "hi", isLoading := true,
                      logs := [] } "t" =
      ({ messages := [], input := "hi", isLoading := true, logs := [] }, none) :=
  handleSend_noop_when_sending _ "t" rfl

/-- C9: the admin Upload operation invoked with an empty file set returns
before the busy flag is ever assigned and before any request is built: the
state is unchanged (in particular the busy flag keeps its value, false
when it was false) and no request is issued. -/
theorem upload_empty_noop (st : AdminState) :
    handleFileUploadStart st [] = (st, none) ∧
    (handleFileUploadStart st []).1.uploading = st.uploading := by
  simp [handleFileUploadStart]

/-- C7 (counterexample): invoking the admin Clear operation with the
whitespace-only name consisting of one space sends that space verbatim as
the index selector, not the null selector the claim demands for
whitespace-only names: neither handler nor facade ever trims the name. -/
theorem clearIndex_whitespace_cex :
    handleClearIndexBody " " ≠ Json.obj [("index_name", Json.null)] := by
  simp [handleClearIndexBody, handleClearIndexArg, apiClearIndexRequestBody]

/-- C7 (amended): invoking the admin Clear operation with the empty name
sends the null selector (all collections), while every non-empty name,
whitespace-only names included, is sent verbatim as the index selector. -/
theorem clearIndex_body_amended :
    handleClearIndexBody "" = Json.obj [("index_name", Json.null)] ∧
    (∀ s : String, s ≠ "" →
      handleClearIndexBody s = Json.obj [("index_name", Json.str s)]) := by
  refine ⟨rfl, fun s hs => ?_⟩
  simp [handleClearIndexBody, handleClearIndexArg, apiClearIndexRequestBody, hs]

/-- C7 (amended, witness): the amended statement applied at the
whitespace-only name of one space. -/
theorem clearIndex_body_amended_witness :
    handleClearIndexBody " " = Json.obj [("index_name", Json.str " ")] :=
  clearIndex_body_amended.2 " " (by decide)

/-- C3: sending any input with non-empty trimmed text while idle appends
exactly one user message with the trimmed content immediately (session
length plus one) and, once the query settles — successfully with any
response, or with any error — exactly one further assistant message
(session length plus two in total, the second appended message having the
assistant role). -/
theorem handleSend_appends_user_then_assistant (st : ChatState) (ts ts2 : String)
    (hIdle : st.isLoading = false) (hNe : jsTrim st.input ≠ "") :
    (handleSendStart st ts).2 = some (jsTrim st.input) ∧
    (handleSendStart st ts).1.messages.length = st.messages.length + 1 ∧
    (handleSendStart st ts).1.messages = st.messages ++
      [{ role := Role.user, content := jsTrim st.input, sources := none,
         metadata := none, timestamp := ts }] ∧
    (∀ resp : RawQueryResponse,
      (handleSendSuccess (handleSendStart st ts).1 resp ts2).messages.length =
          st.messages.length + 2 ∧
      (handleSendSuccess (handleSendStart st ts).1 resp ts2).messages =
        st.messages ++
          [{ role := Role.user, content := jsTrim st.input, sources := none,
             metadata := none, timestamp := ts },
           { role := Role.assistant, content := normAnswer resp.answer,
             sources := some (normSources resp.sources),
             metadata := some (normMetadata resp.metadata_used),
             timestamp := ts2 }]) ∧
    (∀ err : ApiError,
      (handleSendFailure (handleSendStart st ts).1 err ts2).1.messages.length =
          st.messages.length + 2 ∧
      (handleSendFailure (handleSendStart st ts).1 err ts2).1.messages =
        st.messages ++
          [{ role := Role.user, content := jsTrim st.input, sources := none,
             metadata := none, timestamp := ts },
           { role := Role.assistant, content := errorContent, sources := none,
             metadata := none, timestamp := ts2 }]) := by
  simp [handleSendStart, handleSendSuccess, handleSendFailure, hIdle, hNe]

/-- C3 (witness): the optimistic-append phase at a concrete idle state
with input whose trimmed text is non-empty. -/
theorem handleSend_appends_user_then_assistant_witness :
    (handleSendStart { messages := [], input := " hi ", isLoading := false,
                       logs := [] } "09:00").2 = some "hi" :=
  (handleSend_appends_user_then_assistant
    { messages := [], input := " hi ", isLoading := false, logs := [] }
    "09:00" "09:01" rfl (by decide)).1

/-- C4: on every failing query call, exactly one assistant message is
appended, its content being the fixed apology text with neither sources
nor metadata; the raised destructive toast carries the message text of the
underlying error; and the log batch of the session is untouched. -/
theorem handleSend_failure_fixed_apology (st : ChatState) (err : ApiError)
    (ts : String) :
    (handleSendFailure st err ts).1.messages =
      st.messages ++
        [{ role := Role.assistant, content := errorContent,
           sources := none, metadata := none, timestamp := ts }] ∧
    errorContent =
      "❌ Sorry, I encountered an error while processing your request. Please try again." ∧
    (handleSendFailure st err ts).1.logs = st.logs ∧
    (handleSendFailure st err ts).2.description = errMessage err := by
  simp [handleSendFailure, errorContent]

/-- C5: the normalized sources field is the sources value itself when it
is an array, the newline-split pieces with empty pieces dropped when it is
a string, and the empty sequence when it is absent or of any other
shape. -/
theorem normSources_spec :
    (∀ xs : List Json, normSources (some (Json.arr xs)) = xs) ∧
    (∀ s : String, normSources (some (Json.str s)) =
      ((jsSplitNl s).filter (fun x => x != "")).map Json.str) ∧
    normSources (some (Json.str "a\nb\n")) = [Json.str "a", Json.str "b"] ∧
    normSources none = [] ∧
    normSources (some Json.null) = [] ∧
    (∀ b, normSources (some (Json.bool b)) = []) ∧
    (∀ n, normSources (some (Json.num n)) = []) ∧
    (∀ kvs, normSources (some (Json.obj kvs)) = []) :=
  ⟨fun _ => rfl, fun _ => rfl, rfl, rfl, rfl, fun _ => rfl, fun _ => rfl,
    fun _ => rfl⟩

/-- C6 (counterexample): for the present, non-text metadata value false
the normalization yields the sentinel, not the pretty-printed
serialization the claim demands for every present non-text value. -/
theorem normMetadata_present_falsy_cex :
    normMetadata (some (Json.bool false)) ≠ jsonStringify2 (Json.bool false) := by
  rw [jsonStringify2_false]
  decide

/-- C6 (amended): the normalized metadata field is the metadata value
itself when it is text, its pretty-printed serialization when it is
present, not text and truthy, and the sentinel when it is absent or
present but falsy. -/
theorem normMetadata_amended :
    (∀ s : String, normMetadata (some (Json.str s)) = s) ∧
    normMetadata none = "No metadata" ∧
    (∀ v : Json, v.isStr = false → truthy v = true →
      normMetadata (some v) = jsonStringify2 v) ∧
    (∀ v : Json, v.isStr = false → truthy v = false →
      normMetadata (some v) = "No metadata") := by
  refine ⟨fun s => rfl, rfl, ?_, ?_⟩ <;>
    intro v hs ht <;> cases v <;> simp_all [normMetadata, truthy, Json.isStr]

/-- C6 (amended, witness): the serialize branch at the concrete truthy
object value of the spec example. -/
theorem normMetadata_amended_witness :
    normMetadata (some (Json.obj [("x", Json.num 1)])) =
      jsonStringify2 (Json.obj [("x", Json.num 1)]) :=
  normMetadata_amended.2.2.1 (Json.obj [("x", Json.num 1)]) rfl rfl

/-- C8: every facade call that receives a response with a non-success
status fails with the status-kind error carrying the status text, every
facade call whose request produces no response fails with the
transport-kind error, and the two kinds are distinguishable. -/
theorem api_two_error_kinds (status : Nat) (statusText reason : String)
    (body : Json) (hs : statusOk status = false) :
    apiQuery (.response status statusText body) =
      .error (.httpStatus ("Query failed: " ++ statusText)) ∧
    apiUploadDocuments (.response status statusText body) =
      .error (.httpStatus ("Upload failed: " ++ statusText)) ∧
    apiInspectStructure (.response status statusText body) =
      .error (.httpStatus ("Inspect failed: " ++ statusText)) ∧
    apiClearIndex (.response status statusText body) =
      .error (.httpStatus ("Clear failed: " ++ statusText)) ∧
    apiQuery (.noResponse reason) = .error (.transport reason) ∧
    apiUploadDocuments (.noResponse reason) = .error (.transport reason) ∧
    apiInspectStructure (.noResponse reason) = .error (.transport reason) ∧
    apiClearIndex (.noResponse reason) = .error (.transport reason) ∧
    (∀ a b : String, ApiError.httpStatus a ≠ ApiError.transport b) := by
  simp [apiQuery, apiUploadDocuments, apiInspectStructure, apiClearIndex, hs]

/-- C8 (witness): the status-kind error of the query call at the concrete
non-success status 500. -/
theorem api_two_error_kinds_witness :
    apiQuery (.response 500 "Internal Server Error" Json.null) =
      .error (.httpStatus "Query failed: Internal Server Error") :=
  (api_two_error_kinds 500 "Internal Server Error" "Failed to fetch"
    Json.null (by decide)).1

/-- C10: a present but falsy non-text metadata value (the number 0, the
boolean false, null) normalizes to the sentinel, never to a serialization;
for every non-text value the result is the serialization exactly when the
value is truthy and the sentinel otherwise. -/
theorem normMetadata_falsy_sentinel :
    normMetadata (some (Json.num 0)) = "No metadata" ∧
    normMetadata (some (Json.bool false)) = "No metadata" ∧
    normMetadata (some Json.null) = "No metadata" ∧
    (∀ v : Json, v.isStr = false →
      normMetadata (some v) =
        (if truthy v then jsonStringify2 v else "No metadata")) ∧
    (∀ v : Json, v.isStr = false → truthy v = false →
      normMetadata (some v) ≠ jsonStringify2 v) := by
  refine ⟨rfl, rfl, rfl, ?_, ?_⟩
  · intro v hv
    cases v <;> simp_all [normMetadata, Json.isStr]
  · intro v hv ht h
    cases v with
    | null =>
        rw [jsonStringify2_null] at h
        exact absurd h (by decide)
    | bool b =>
        cases b with
        | false =>
            rw [jsonStringify2_false] at h
            exact absurd h (by decide)
        | true => simp [truthy] at ht
    | num n =>
        have h0 : n = 0 := by simpa [truthy] using ht
        subst h0
        rw [jsonStringify2_zero] at h
        exact absurd h (by decide)
    | str s => simp [Json.isStr] at hv
    | arr xs => simp [truthy] at ht
    | obj kvs => simp [truthy] at ht

/-- C10 (witness): the sentinel at the concrete falsy value 0 together
with the branch characterization applied there. -/
theorem normMetadata_falsy_sentinel_witness :
    normMetadata (some (Json.num 0)) =
      (if truthy (Json.num 0) then jsonStringify2 (Json.num 0)
       else "No metadata") :=
  normMetadata_falsy_sentinel.2.2.2.1 (Json.num 0) rfl
